import Mathlib

/-
Verification of the odd-even counter contract (src/src/contract.rs).

The contract persists a single `State { count: i32, owner }` record in a
storage singleton.  We shallow-embed the contract entry points as pure
functions over `Option State` (the singleton slot: `none` = uninitialized),
with i32 arithmetic made explicit: Rust's release-mode `+=` / `-=` on i32
wraps two's-complement, written here as `wrap32`, and Rust's `%` is the
truncating remainder, written `Int.tmod`.
-/

namespace Contract

/-- Modelled from the spec: the persisted record (`State` lives in the
repository's `state.rs`, which is not under src/; §3 of the spec gives its
shape: a signed 32-bit `count` and an opaque `owner` identity, here a
string address). -/
structure State where
  count : Int
  owner : String
deriving Repr, DecidableEq

/-- The two error kinds the contract can surface (cosmwasm `StdError`
variants actually produced by this code: `NotFound` from loading an empty
singleton, `Unauthorized` from the reset guard). -/
inductive StdError where
  | notFound
  | unauthorized
deriving Repr, DecidableEq

/-- cosmwasm `StdResult`. -/
abbrev StdResult (α : Type) := Except StdError α

/-- Opaque serialized payload (`cosmwasm_std::Binary`); serialization is a
host concern, so we keep the payload string itself. -/
structure Binary where
  data : String
deriving Repr, DecidableEq

/-- `to_binary` on a string payload; the serializer never fails on a
string, mirroring `to_binary(&String)`. -/
def to_binary (s : String) : StdResult Binary := .ok ⟨s⟩

/-- `env.message`: the caller identity injected by the host. -/
structure MessageInfo where
  sender : String
deriving Repr, DecidableEq

/-- The host environment handed to `init`/`handle`; only `message.sender`
is read by this contract. -/
structure Env where
  message : MessageInfo
deriving Repr, DecidableEq

/-- `InitResponse::default()`: empty message list, no log. -/
structure InitResponse where
  messages : List Binary := []
  log : List (String × String) := []
deriving Repr, DecidableEq

/-- `HandleResponse::default()`: empty messages, no log, no data. -/
structure HandleResponse where
  messages : List Binary := []
  log : List (String × String) := []
  data : Option Binary := none
deriving Repr, DecidableEq

/-- `InitMsg { count: i32 }` (msg.rs is not under src/; the spec §6 gives
the shape `{ count: integer }`). -/
structure InitMsg where
  count : Int
deriving Repr, DecidableEq

/-- `HandleMsg`: the three mutating commands. -/
inductive HandleMsg where
  | Increase (value : Int)
  | Decrease (value : Int)
  | Reset (count : Int)
deriving Repr, DecidableEq

/-- `QueryMsg`: the single query. -/
inductive QueryMsg where
  | QueryEvenOdd
deriving Repr, DecidableEq

/-- Two's-complement wrap into the i32 range, the release-mode behaviour
of Rust i32 `+` / `-`. -/
def wrap32 (n : Int) : Int := (n + 2 ^ 31) % 2 ^ 32 - 2 ^ 31

/-- Modelled from the spec: `config(&mut storage).save(&state)` writes the
singleton slot (`state.rs` / cosmwasm-storage `Singleton::save`). -/
def configSave (_storage : Option State) (s : State) : Option State := some s

/-- Modelled from the spec: `config_read(&storage).load()` reads the
singleton slot, failing with a not-found storage error when no State has
been persisted (spec §4.1, §7 `NotInitialized`). -/
def configLoad (storage : Option State) : StdResult State :=
  match storage with
  | some s => .ok s
  | none => .error .notFound

/-- Modelled from the spec: `config(&mut storage).update(f)` loads the
record (not-found error when absent), applies `f`, and saves only on
success, so a failing `f` leaves the slot untouched. -/
def configUpdate (storage : Option State) (f : State → StdResult State) :
    StdResult (Option State) :=
  match storage with
  | some s =>
    match f s with
    | .ok s' => .ok (some s')
    | .error e => .error e
  | none => .error .notFound

/-- `init`: build `State { count: msg.count, owner: env.message.sender }`,
save it, return the default response. -/
def init (storage : Option State) (env : Env) (msg : InitMsg) :
    StdResult (Option State × InitResponse) :=
  let state : State := { count := msg.count, owner := env.message.sender }
  .ok (configSave storage state, {})

/-- `try_increase`: `state.count += value` inside `update`. -/
def try_increase (storage : Option State) (_env : Env) (value : Int) :
    StdResult (Option State × HandleResponse) :=
  match configUpdate storage
      (fun state => .ok { state with count := wrap32 (state.count + value) }) with
  | .ok storage' => .ok (storage', {})
  | .error e => .error e

/-- `try_decrease`: `state.count -= value` inside `update`. -/
def try_decrease (storage : Option State) (_env : Env) (value : Int) :
    StdResult (Option State × HandleResponse) :=
  match configUpdate storage
      (fun state => .ok { state with count := wrap32 (state.count - value) }) with
  | .ok storage' => .ok (storage', {})
  | .error e => .error e

/-- `try_reset`: inside `update`, reject a sender different from the
stored owner with `StdError::Unauthorized`, otherwise set the count. -/
def try_reset (storage : Option State) (env : Env) (count : Int) :
    StdResult (Option State × HandleResponse) :=
  match configUpdate storage
      (fun state =>
        if env.message.sender ≠ state.owner then .error .unauthorized
        else .ok { state with count := count }) with
  | .ok storage' => .ok (storage', {})
  | .error e => .error e

/-- `handle`: dispatch on the command tag. -/
def handle (storage : Option State) (env : Env) (msg : HandleMsg) :
    StdResult (Option State × HandleResponse) :=
  match msg with
  | .Increase value => try_increase storage env value
  | .Decrease value => try_decrease storage env value
  | .Reset count => try_reset storage env count

/-- `query_even_odd`: load the state and classify the count's parity with
Rust's truncating `%`, rendering the count in decimal (`format!`, matched
by `toString` on `Int`). -/
def query_even_odd (storage : Option State) : StdResult String :=
  match configLoad storage with
  | .ok state =>
    if state.count.tmod 2 = 0 then
      .ok ("Even Number: " ++ toString state.count)
    else
      .ok ("Odd Number: " ++ toString state.count)
  | .error e => .error e

/-- `query`: dispatch and serialize. -/
def query (storage : Option State) (msg : QueryMsg) : StdResult Binary :=
  match msg with
  | .QueryEvenOdd =>
    match query_even_odd storage with
    | .ok s => to_binary s
    | .error e => .error e

/-- The storage slot after a mutating invocation: the updated slot on
success; on error the host aborts the call, leaving the slot as it was
(and `configUpdate` itself never saved). -/
def postState (pre : Option State)
    (r : StdResult (Option State × HandleResponse)) : Option State :=
  match r with
  | .ok (s, _) => s
  | .error _ => pre

/-- A full query invocation: `query` borrows the storage immutably
(`&Extern`), so the invocation pairs the untouched slot with the result. -/
def queryStep (storage : Option State) (msg : QueryMsg) :
    Option State × StdResult Binary :=
  (storage, query storage msg)

/-- Truncating remainder by 2 vanishes exactly on the multiples of 2. -/
theorem tmod_two_eq_zero_iff (c : Int) : c.tmod 2 = 0 ↔ 2 ∣ c :=
  ⟨fun h => Int.dvd_of_tmod_eq_zero h, fun h => Int.tmod_eq_zero_of_dvd h⟩

/-- A value already in the i32 range is a fixed point of `wrap32`. -/
theorem wrap32_eq_self {n : Int} (h1 : -(2 ^ 31) ≤ n) (h2 : n < 2 ^ 31) :
    wrap32 n = n := by
  have e1 : (2 : Int) ^ 31 = 2147483648 := by norm_num
  have e2 : (2 : Int) ^ 32 = 4294967296 := by norm_num
  simp only [wrap32, e1, e2] at *
  omega

/-- Wrapping addition followed by wrapping subtraction of the same value
returns any in-range starting point. -/
theorem wrap32_add_sub_cancel {c : Int} (v : Int)
    (h1 : -(2 ^ 31) ≤ c) (h2 : c < 2 ^ 31) :
    wrap32 (wrap32 (c + v) - v) = c := by
  have e1 : (2 : Int) ^ 31 = 2147483648 := by norm_num
  have e2 : (2 : Int) ^ 32 = 4294967296 := by norm_num
  simp only [wrap32, e1, e2] at *
  omega

/-- C1: for every initialized state, the EvenOdd query succeeds and
returns "Even Number: {count}" exactly when the count is even and
"Odd Number: {count}" otherwise, with the count rendered in decimal. -/
theorem evenOdd_renders_parity (st : State) :
    query_even_odd (some st) =
      .ok (if 2 ∣ st.count then "Even Number: " ++ toString st.count
           else "Odd Number: " ++ toString st.count) := by
  by_cases h : 2 ∣ st.count
  · simp [query_even_odd, configLoad, (tmod_two_eq_zero_iff st.count).mpr h, h]
  · have hz : st.count.tmod 2 ≠ 0 := fun hz => h ((tmod_two_eq_zero_iff _).mp hz)
    simp [query_even_odd, configLoad, hz, h]

/-- C2: Reset with a sender different from the stored owner fails with
Unauthorized, and the persisted state (count and owner) after the call is
exactly what it was before. -/
theorem reset_nonowner_unauthorized (st : State) (e : Env) (c : Int)
    (h : e.message.sender ≠ st.owner) :
    try_reset (some st) e c = .error .unauthorized ∧
      postState (some st) (try_reset (some st) e c) = some st := by
  have hr : try_reset (some st) e c = .error .unauthorized := by
    simp [try_reset, configUpdate, h]
  exact ⟨hr, by rw [hr]; rfl⟩

/-- Witness for C2 at the test scenario: owner "creator", sender "anyone". -/
theorem reset_nonowner_unauthorized_witness :
    try_reset (some ⟨17, "creator"⟩) ⟨⟨"anyone"⟩⟩ 5 = .error .unauthorized ∧
      postState (some ⟨17, "creator"⟩)
        (try_reset (some ⟨17, "creator"⟩) ⟨⟨"anyone"⟩⟩ 5) =
        some ⟨17, "creator"⟩ :=
  reset_nonowner_unauthorized ⟨17, "creator"⟩ ⟨⟨"anyone"⟩⟩ 5 (by decide)

/-- Counterexample to C3 as stated: initializing with the maximal i32
count 2147483647 and increasing by 1 stores the wrapped value
-2147483648, not c + v = 2147483648. -/
theorem increase_overflow_counterexample :
    init none ⟨⟨"creator"⟩⟩ ⟨2147483647⟩ =
      .ok (some ⟨2147483647, "creator"⟩, {}) ∧
    try_increase (some ⟨2147483647, "creator"⟩) ⟨⟨"anyone"⟩⟩ 1 =
      .ok (some ⟨-2147483648, "creator"⟩, {}) ∧
    (-2147483648 : Int) ≠ 2147483647 + 1 := by
  refine ⟨rfl, ?_, by decide⟩
  have hw : wrap32 2147483648 = -2147483648 := by decide
  simp [try_increase, configUpdate, hw]

/-- C3 amended: after Initialize with count c, Increase(v) succeeds and
stores the two's-complement 32-bit wrap of c + v, and Decrease(v) stores
the wrap of c - v; these equal c + v and c - v whenever the exact result
lies in the i32 range. -/
theorem increase_decrease_store_wrapped (c v : Int) (e e' : Env) :
    init none e ⟨c⟩ = .ok (some ⟨c, e.message.sender⟩, {}) ∧
    try_increase (some ⟨c, e.message.sender⟩) e' v =
      .ok (some ⟨wrap32 (c + v), e.message.sender⟩, {}) ∧
    try_decrease (some ⟨c, e.message.sender⟩) e' v =
      .ok (some ⟨wrap32 (c - v), e.message.sender⟩, {}) ∧
    (-(2 ^ 31) ≤ c + v → c + v < 2 ^ 31 → wrap32 (c + v) = c + v) ∧
    (-(2 ^ 31) ≤ c - v → c - v < 2 ^ 31 → wrap32 (c - v) = c - v) :=
  ⟨rfl, rfl, rfl,
   fun h1 h2 => wrap32_eq_self h1 h2,
   fun h1 h2 => wrap32_eq_self h1 h2⟩

/-- Witness for the amended C3 at c = 17, v = 2 (where no wrap occurs). -/
theorem increase_decrease_store_wrapped_witness :
    try_increase (some ⟨17, "creator"⟩) ⟨⟨"anyone"⟩⟩ 2 =
      .ok (some ⟨wrap32 (17 + 2), "creator"⟩, {}) ∧
    wrap32 (17 + 2) = 17 + 2 ∧ wrap32 (17 - 2) = 17 - 2 := by
  have h := increase_decrease_store_wrapped 17 2 ⟨⟨"creator"⟩⟩ ⟨⟨"anyone"⟩⟩
  exact ⟨h.2.1, h.2.2.2.1 (by decide) (by decide),
    h.2.2.2.2 (by decide) (by decide)⟩

/-- C4: Reset invoked with the stored owner as sender succeeds and sets
the stored count to exactly the requested value, keeping the owner. -/
theorem reset_owner_sets_count (st : State) (c : Int) :
    try_reset (some st) ⟨⟨st.owner⟩⟩ c = .ok (some ⟨c, st.owner⟩, {}) := by
  simp [try_reset, configUpdate]

/-- C5: with no persisted State, every mutating command and the EvenOdd
query fail with the not-found storage error. -/
theorem uninitialized_all_fail (e : Env) (m : HandleMsg) (q : QueryMsg) :
    handle none e m = .error .notFound ∧
    query none q = .error .notFound ∧
    query_even_odd none = .error .notFound := by
  refine ⟨?_, ?_, rfl⟩
  · cases m <;> rfl
  · cases q
    rfl

/-- C6: Initialize stores the caller as owner, and no handle command or
query invocation ever changes the stored owner. -/
theorem owner_set_once_never_changed (storage : Option State) (e0 : Env)
    (m0 : InitMsg) (st : State) (e : Env) (m : HandleMsg) (q : QueryMsg) :
    init storage e0 m0 = .ok (some ⟨m0.count, e0.message.sender⟩, {}) ∧
    Option.map State.owner (postState (some st) (handle (some st) e m)) =
      some st.owner ∧
    Option.map State.owner (queryStep (some st) q).1 = some st.owner := by
  refine ⟨rfl, ?_, rfl⟩
  cases m with
  | Increase v => simp [handle, try_increase, configUpdate, postState]
  | Decrease v => simp [handle, try_decrease, configUpdate, postState]
  | Reset c =>
    by_cases h : e.message.sender ≠ st.owner
    · simp [handle, try_reset, configUpdate, postState, h]
    · simp [handle, try_reset, configUpdate, postState, h]

/-- C7: Initialize always succeeds and persists exactly the state with
the message's count and the caller's identity as owner. -/
theorem init_persists_exactly (storage : Option State) (e : Env)
    (msg : InitMsg) :
    init storage e msg =
      .ok (some ⟨msg.count, e.message.sender⟩, ({} : InitResponse)) := rfl

/-- C8: a query invocation leaves the storage slot identical to what it
was before, whether the query succeeds or fails. -/
theorem query_never_mutates (storage : Option State) (q : QueryMsg) :
    (queryStep storage q).1 = storage := rfl

/-- C9: for every i32 count, including negative values under Rust's
truncating remainder, EvenOdd reports Even exactly when the count is
divisible by 2 and Odd exactly when it is not. -/
theorem evenOdd_parity_negative (c : Int) (o : String) :
    (2 ∣ c → query_even_odd (some ⟨c, o⟩) =
      .ok ("Even Number: " ++ toString c)) ∧
    (¬ 2 ∣ c → query_even_odd (some ⟨c, o⟩) =
      .ok ("Odd Number: " ++ toString c)) := by
  constructor
  · intro h
    simp [query_even_odd, configLoad, (tmod_two_eq_zero_iff c).mpr h]
  · intro h
    have hz : c.tmod 2 ≠ 0 := fun hz => h ((tmod_two_eq_zero_iff c).mp hz)
    simp [query_even_odd, configLoad, hz]

/-- Witness for C9 at the negative counts -4 (even) and -3 (odd, where
Rust's remainder is -1, not 0). -/
theorem evenOdd_parity_negative_witness :
    query_even_odd (some ⟨-4, "creator"⟩) =
      .ok ("Even Number: " ++ toString (-4 : Int)) ∧
    query_even_odd (some ⟨-3, "creator"⟩) =
      .ok ("Odd Number: " ++ toString (-3 : Int)) :=
  ⟨(evenOdd_parity_negative (-4) "creator").1 (by omega),
   (evenOdd_parity_negative (-3) "creator").2 (by omega)⟩

/-- C10: for an initialized state with an in-range i32 count, Increase(v)
followed by Decrease(v) restores the stored count exactly, for every v,
under the wrapping 32-bit arithmetic. -/
theorem increase_then_decrease_roundtrip (st : State) (e e' : Env) (v : Int)
    (h1 : -(2 ^ 31) ≤ st.count) (h2 : st.count < 2 ^ 31) :
    postState (postState (some st) (handle (some st) e (.Increase v)))
      (handle (postState (some st) (handle (some st) e (.Increase v))) e'
        (.Decrease v)) = some st := by
  simp [handle, try_increase, try_decrease, configUpdate, postState,
    wrap32_add_sub_cancel v h1 h2]

/-- Witness for C10 at count 17, v = 2. -/
theorem increase_then_decrease_roundtrip_witness :
    postState
      (postState (some ⟨17, "creator"⟩)
        (handle (some ⟨17, "creator"⟩) ⟨⟨"anyone"⟩⟩ (.Increase 2)))
      (handle
        (postState (some ⟨17, "creator"⟩)
          (handle (some ⟨17, "creator"⟩) ⟨⟨"anyone"⟩⟩ (.Increase 2)))
        ⟨⟨"other"⟩⟩ (.Decrease 2)) = some ⟨17, "creator"⟩ :=
  increase_then_decrease_roundtrip ⟨17, "creator"⟩ ⟨⟨"anyone"⟩⟩ ⟨⟨"other"⟩⟩ 2
    (by decide) (by decide)

end Contract
